import Mathlib

/-!
Shallow embedding of the note browsing and management pages of the BOLT
repository (src/src/pages). The data model and every operation the claims
refer to are translated from the TypeScript source into executable Lean
definitions; theorems about the claims follow the definitions.

Conventions of the embedding:
* JS strings are Lean `String`, and character-level operations work on
  `String.data` (the list of characters).
* Timestamps (`new Date(note.created_at).getTime()`) are modelled by a
  numeric `created_at : Nat` field, since only their order is ever used.
* `localeCompare` is modelled as code-point lexicographic comparison of the
  character lists.
* The JS regex classes are modelled character by character: `\w` is
  `[A-Za-z0-9_]`, `\s` is the whitespace class, and `[\s_-]` combines them.
-/

namespace Bolt

/-- JS whitespace class: models the regex class \s and the characters trimmed
by String.prototype.trim (ASCII whitespace plus the no-break space). -/
def isJsSpace (c : Char) : Bool :=
  c == ' ' || c == '\t' || c == '\n' || c == '\r' || c == '\x0b' || c == '\x0c' || c == '\u00A0'

/-- Word-character class: models the regex class \w, i.e. [A-Za-z0-9_]
(code points 97-122 are a-z, 65-90 are A-Z, 48-57 are 0-9). -/
def isWordChar (c : Char) : Bool :=
  (97 ≤ c.toNat && c.toNat ≤ 122) || (65 ≤ c.toNat && c.toNat ≤ 90) ||
    (48 ≤ c.toNat && c.toNat ≤ 57) || c == '_'

/-- Models String.prototype.toLowerCase on one character for the ASCII range:
code points 65-90 (A-Z) map to 97-122 (a-z), all other characters are kept. -/
def toLowerChar (c : Char) : Char :=
  if 65 ≤ c.toNat && c.toNat ≤ 90 then Char.ofNat (c.toNat + 32) else c

/-- Models String.prototype.toLowerCase. -/
def toLowerStr (s : String) : String := String.mk (s.data.map toLowerChar)

/-- Models String.prototype.trim on a character list: drop leading and
trailing whitespace. -/
def jsTrimList (l : List Char) : List Char :=
  ((l.dropWhile isJsSpace).reverse.dropWhile isJsSpace).reverse

/-- Models String.prototype.trim. -/
def jsTrim (s : String) : String := String.mk (jsTrimList s.data)

/-- Whether the pattern (first argument) occurs at the very start of the
second list; helper for the substring test behind String.prototype.includes. -/
def startsWithList : List Char → List Char → Bool
  | [], _ => true
  | _ :: _, [] => false
  | p :: ps, c :: cs => p == c && startsWithList ps cs

/-- Whether the pattern (first argument) occurs contiguously anywhere in the
second list. -/
def containsList (pat : List Char) : List Char → Bool
  | [] => pat.isEmpty
  | c :: cs => startsWithList pat (c :: cs) || containsList pat cs

/-- Models s.includes(pat) for JS strings. -/
def strIncludes (s pat : String) : Bool := containsList pat.data s.data

/-- The Note entity as used by every page (denormalized year reference,
publication flag, counters, creation timestamp). -/
structure Note where
  id : String
  slug : String
  title : String
  excerpt : String
  content : String
  unit_id : String
  year_id : String
  lecturer_id : String
  difficulty_level : String
  estimated_read_time : Nat
  view_count : Nat
  download_count : Nat
  is_published : Bool
  is_featured : Bool
  created_at : Nat
deriving DecidableEq

/-- NotePage.tsx line 29: the displayed note is the first note whose slug
equals the route parameter; no publication check is made here. -/
def notePageNote (notes : List Note) (slug : String) : Option Note :=
  notes.find? (fun n => n.slug == slug)

/-- NotePage.tsx lines 35-37: related notes are the published notes of the
same unit other than the displayed note, truncated to the first three. -/
def relatedNotes (notes : List Note) (note : Note) : List Note :=
  (notes.filter (fun n => n.unit_id == note.unit_id && n.id != note.id && n.is_published)).take 3

/-- YearPage.tsx lines 29-33: notes of the current year that are published
and, when a unit is selected, belong to the selected unit. -/
def yearNotes (notes : List Note) (currentYearId : String) (selectedUnit : String) : List Note :=
  notes.filter (fun note =>
    note.year_id == currentYearId && note.is_published &&
      (selectedUnit == "all" || note.unit_id == selectedUnit))

/-- UnitPage.tsx lines 37-41: the filtering stage of the unit page, before
sorting: published notes of the unit passing the difficulty filter. -/
def unitNotesFiltered (notes : List Note) (unitId : String) (difficultyFilter : String) :
    List Note :=
  notes.filter (fun note =>
    note.unit_id == unitId && note.is_published &&
      (difficultyFilter == "all" || note.difficulty_level == difficultyFilter))

/-- The comparator of UnitPage.tsx lines 44-57 and SearchPage.tsx lines 74-90,
turned into a boolean "less or equal" relation: newest = created_at
descending, oldest = created_at ascending, popular = view_count descending,
title = localeCompare ascending (modelled as code-point order), any other
key compares everything equal (comparator constantly 0). -/
def sortLe (sortBy : String) : Note → Note → Bool :=
  match sortBy with
  | "newest" => fun a b => decide (b.created_at ≤ a.created_at)
  | "oldest" => fun a b => decide (a.created_at ≤ b.created_at)
  | "popular" => fun a b => decide (b.view_count ≤ a.view_count)
  | "title" => fun a b => decide (a.title.data ≤ b.title.data)
  | _ => fun _ _ => true

/-- The sorting stage shared by UnitPage and SearchPage, modelled as a stable
merge sort with the comparator above. -/
def sortNotes (sortBy : String) (l : List Note) : List Note :=
  l.mergeSort (sortLe sortBy)

/-- UnitPage.tsx lines 37-57: unitNotes is the filtering stage followed by
the sorting stage. -/
def unitNotes (notes : List Note) (unitId difficultyFilter sortBy : String) : List Note :=
  sortNotes sortBy (unitNotesFiltered notes unitId difficultyFilter)

/-- SearchPage.tsx lines 74-90: sortedResults sorts a copy of the search
results with the shared comparator. -/
def sortedResults (sortBy : String) (searchResults : List Note) : List Note :=
  sortNotes sortBy searchResults

/-- NotesManager.tsx lines 69-79: the admin filtered list; a note passes when
the lowercased search term occurs in its lowercased title or excerpt, the
status filter accepts its publication flag, and the year filter accepts its
year. -/
def filteredNotes (notes : List Note) (searchTerm statusFilter yearFilter : String) :
    List Note :=
  notes.filter (fun note =>
    (strIncludes (toLowerStr note.title) (toLowerStr searchTerm) ||
      strIncludes (toLowerStr note.excerpt) (toLowerStr searchTerm)) &&
    (statusFilter == "all" ||
      (statusFilter == "published" && note.is_published) ||
      (statusFilter == "draft" && !note.is_published)) &&
    (yearFilter == "all" || note.year_id == yearFilter))

/-- The search criterion of claim C2, stated the way the spec words it: the
search term occurs case-insensitively as a contiguous substring of the title
or of the excerpt. -/
def searchCriterion (searchTerm : String) (n : Note) : Prop :=
  (∃ pre post, (toLowerStr n.title).data = pre ++ (toLowerStr searchTerm).data ++ post) ∨
    (∃ pre post, (toLowerStr n.excerpt).data = pre ++ (toLowerStr searchTerm).data ++ post)

/-- The year criterion of claim C2: a year filter other than "all" requires
the year of the note to equal it. -/
def yearCriterion (yearFilter : String) (n : Note) : Prop :=
  yearFilter = "all" ∨ n.year_id = yearFilter

/-- Separator class of the slug generator: the regex class [\s_-]. -/
def isSep (c : Char) : Bool := isJsSpace c || c == '_' || c == '-'

/-- Models the .replace(/[\s_-]+/g, "-") step of generateSlug: every maximal
run of whitespace, underscores and hyphens becomes a single hyphen. -/
def collapseSeps : List Char → List Char
  | [] => []
  | [c] => if isSep c then ['-'] else [c]
  | a :: b :: rest =>
    if isSep a then
      (if isSep b then collapseSeps (b :: rest) else '-' :: collapseSeps (b :: rest))
    else a :: collapseSeps (b :: rest)

/-- Models the .replace(/^-+|-+$/g, "") step of generateSlug: strip leading
and trailing hyphens. -/
def stripHyphens (l : List Char) : List Char :=
  ((l.dropWhile (fun c => c == '-')).reverse.dropWhile (fun c => c == '-')).reverse

/-- NotesManager.tsx lines 82-89: the slug generator. Lowercase the title,
trim it, remove every character outside [\w\s-], collapse runs of [\s_-] to
a single hyphen, and strip leading and trailing hyphens. -/
def generateSlug (title : String) : String :=
  String.mk (stripHyphens (collapseSeps
    ((jsTrimList (title.data.map toLowerChar)).filter
      (fun c => isWordChar c || isJsSpace c || c == '-'))))

/-- Characters the spec allows in a slug: lowercase alphanumerics,
underscore, hyphen. -/
def slugCharOK (c : Char) : Bool :=
  (97 ≤ c.toNat && c.toNat ≤ 122) || (48 ≤ c.toNat && c.toNat ≤ 57) || c == '_' || c == '-'

/-- Helper of the word counter: walks the character list carrying the
current in-progress word and emits each maximal non-whitespace run, i.e.
exactly the non-empty tokens of content.split(/\s+/). -/
def wordsAux (cur : List Char) : List Char → List (List Char)
  | [] => if cur.isEmpty then [] else [cur.reverse]
  | c :: rest =>
    if isJsSpace c then
      (if cur.isEmpty then wordsAux [] rest else cur.reverse :: wordsAux [] rest)
    else wordsAux (c :: cur) rest

/-- NotesManager.tsx line 93: content.split(/\s+/).filter(w => w.length > 0).length,
the number of non-empty whitespace-separated tokens. -/
def wordCount (content : String) : Nat := (wordsAux [] content.data).length

/-- NotesManager.tsx lines 91-95: the read-time estimator. Divide the word
count by 200 words per minute, round up, and floor the result at 1. -/
def calculateReadTime (content : String) : Nat :=
  max 1 ((wordCount content + 199) / 200)

/-- The authoring form state of NotesManager.tsx lines 25-38. -/
structure FormData where
  title : String
  slug : String
  content : String
  excerpt : String
  unit_id : String
  year_id : String
  lecturer_id : String
  difficulty_level : String
  estimated_read_time : Nat
  is_published : Bool
  is_featured : Bool
  featured_image : String
deriving DecidableEq

/-- NotesManager.tsx lines 40-53: the blank draft. -/
def INITIAL_FORM_DATA : FormData :=
  { title := ""
    slug := ""
    content := ""
    excerpt := ""
    unit_id := ""
    year_id := ""
    lecturer_id := ""
    difficulty_level := "Intermediate"
    estimated_read_time := 5
    is_published := false
    is_featured := false
    featured_image := "" }

/-- NotesManager.tsx lines 98-104: a title edit stores the new title and
always recomputes the slug from it. -/
def handleTitleChange (prev : FormData) (title : String) : FormData :=
  { prev with title := title, slug := generateSlug title }

/-- NotesManager.tsx lines 106-112: a content edit stores the new content
and recomputes the estimated read time from it. -/
def handleContentChange (prev : FormData) (content : String) : FormData :=
  { prev with content := content, estimated_read_time := calculateReadTime content }

/-- handleFormDataChange (NotesManager.tsx lines 114-122) applied to the
slug field. -/
def setSlugField (prev : FormData) (value : String) : FormData :=
  { prev with slug := value }

/-- handleFormDataChange applied to the year_id field. -/
def setYearIdField (prev : FormData) (value : String) : FormData :=
  { prev with year_id := value }

/-- handleFormDataChange applied to the unit_id field. -/
def setUnitIdField (prev : FormData) (value : String) : FormData :=
  { prev with unit_id := value }

/-- NotesManager.tsx lines 642-645, the onChange handler of the Academic
Year select: store the selected year, then reset the unit to empty. -/
def yearSelectOnChange (prev : FormData) (value : String) : FormData :=
  setUnitIdField (setYearIdField prev value) ""

/-- NotesManager.tsx lines 124-146: the ordered, fail-fast form validation;
the result is the toast message of the first failing rule, or none when the
form is valid. -/
def validateForm (formData : FormData) : Option String :=
  if jsTrim formData.title == "" then some "Note title is required"
  else if jsTrim formData.content == "" then some "Note content is required"
  else if jsTrim formData.excerpt == "" then some "Note excerpt is required"
  else if formData.unit_id == "" then some "Please select a unit"
  else if formData.year_id == "" then some "Please select a year"
  else none

/-- The single store mutation a submission dispatches. -/
inductive SubmitAction where
  | create (data : FormData)
  | update (id : String) (data : FormData)
deriving DecidableEq

/-- NotesManager.tsx lines 156-162: the payload of a submission; title,
excerpt and content are trimmed and an empty slug falls back to a slug
generated from the title. -/
def submitPayload (formData : FormData) : FormData :=
  { formData with
    title := jsTrim formData.title
    excerpt := jsTrim formData.excerpt
    content := jsTrim formData.content
    slug := if formData.slug == "" then generateSlug formData.title else formData.slug }

/-- NotesManager.tsx lines 148-179: a submission validates first and aborts
with the validation message without any store call when validation fails;
otherwise it dispatches an update when a note is being edited and a create
otherwise. -/
def handleSubmit (editingNote : Option String) (formData : FormData) :
    Except String SubmitAction :=
  match validateForm formData with
  | some msg => Except.error msg
  | none =>
    match editingNote with
    | some id => Except.ok (SubmitAction.update id (submitPayload formData))
    | none => Except.ok (SubmitAction.create (submitPayload formData))

/-- A partial update payload for updateNote: a field that is none is absent
from the payload. -/
structure NotePatch where
  slug : Option String := none
  title : Option String := none
  excerpt : Option String := none
  content : Option String := none
  unit_id : Option String := none
  year_id : Option String := none
  lecturer_id : Option String := none
  difficulty_level : Option String := none
  estimated_read_time : Option Nat := none
  view_count : Option Nat := none
  download_count : Option Nat := none
  is_published : Option Bool := none
  is_featured : Option Bool := none
  created_at : Option Nat := none
deriving DecidableEq

/-- NotesManager.tsx line 225: the payload of the publish toggle is the
single field is_published, set to the negation of the current value. -/
def togglePublishPatch (note : Note) : NotePatch :=
  { is_published := some (!note.is_published) }

/-- Modelled from the spec: updateNote lives in the MedflyContext data layer,
which is not under src/; per the spec it "supports partial field updates
(used both for full edits and single-field publish toggles)", so a field
absent from the payload keeps its stored value. -/
def applyPatch (stored : Note) (p : NotePatch) : Note :=
  { id := stored.id
    slug := p.slug.getD stored.slug
    title := p.title.getD stored.title
    excerpt := p.excerpt.getD stored.excerpt
    content := p.content.getD stored.content
    unit_id := p.unit_id.getD stored.unit_id
    year_id := p.year_id.getD stored.year_id
    lecturer_id := p.lecturer_id.getD stored.lecturer_id
    difficulty_level := p.difficulty_level.getD stored.difficulty_level
    estimated_read_time := p.estimated_read_time.getD stored.estimated_read_time
    view_count := p.view_count.getD stored.view_count
    download_count := p.download_count.getD stored.download_count
    is_published := p.is_published.getD stored.is_published
    is_featured := p.is_featured.getD stored.is_featured
    created_at := p.created_at.getD stored.created_at }

/-- NotesManager.tsx lines 223-233: the publish toggle issues the
single-field payload; the component mutates none of its local state in
either branch, and on failure the error message of the rejected call is the
surfaced toast text. The result is (local state, issued payload, surfaced
error). -/
def togglePublishStatus (localNotes : List Note) (note : Note)
    (remote : Except String Unit) : List Note × NotePatch × Option String :=
  (localNotes, togglePublishPatch note,
    match remote with
    | Except.ok _ => none
    | Except.error msg => some msg)

/-- A concrete unpublished note, used as the failing input of claim C1. -/
def draftNote : Note :=
  { id := "n1"
    slug := "anatomy-intro"
    title := "Anatomy Intro"
    excerpt := "Skeleton overview"
    content := "The skeletal system"
    unit_id := "u1"
    year_id := "y1"
    lecturer_id := ""
    difficulty_level := "Beginner"
    estimated_read_time := 3
    view_count := 0
    download_count := 0
    is_published := false
    is_featured := false
    created_at := 0 }

/-- A concrete 199-word content, used as witness input for claim C5. -/
def words199 : String := String.mk (List.flatten (List.replicate 199 ['w', ' ']))

/-- A concrete 201-word content, used as witness input for claim C5. -/
def words201 : String := String.mk (List.flatten (List.replicate 201 ['w', ' ']))

/-- Claim C1: the claim says a note with is_published = false is never
rendered by a student-facing page for any route parameter, but the note
detail page selects its note by slug alone; with a store holding one
unpublished note, the route for its slug renders that draft, while the year
and unit pages correctly exclude it. -/
theorem claim1_notePage_renders_draft :
    notePageNote [draftNote] "anatomy-intro" = some draftNote
    ∧ draftNote.is_published = false
    ∧ yearNotes [draftNote] "y1" "all" = []
    ∧ unitNotesFiltered [draftNote] "u1" "all" = [] := by decide

/-- Claim C5: the read-time estimator returns 1 on the empty string, 1 on
any 199-word content, 2 on any 201-word content, and is monotonically
non-decreasing in the word count. -/
theorem claim5_readTime :
    calculateReadTime "" = 1
    ∧ (∀ content : String, wordCount content = 199 → calculateReadTime content = 1)
    ∧ (∀ content : String, wordCount content = 201 → calculateReadTime content = 2)
    ∧ (∀ a b : String, wordCount a ≤ wordCount b →
        calculateReadTime a ≤ calculateReadTime b) := by
  refine ⟨by decide, ?_, ?_, ?_⟩
  · intro content h; simp [calculateReadTime, h]
  · intro content h; simp [calculateReadTime, h]
  · intro a b h
    unfold calculateReadTime
    exact max_le_max (le_refl 1) (Nat.div_le_div_right (by omega))

set_option maxRecDepth 8000 in
/-- Witness for claim C5: the hypotheses are discharged at the concrete
199-word and 201-word contents. -/
theorem claim5_readTime_witness :
    wordCount words199 = 199 ∧ calculateReadTime words199 = 1
    ∧ wordCount words201 = 201 ∧ calculateReadTime words201 = 2
    ∧ wordCount words199 ≤ wordCount words201
    ∧ calculateReadTime words199 ≤ calculateReadTime words201 :=
  ⟨by decide, claim5_readTime.2.1 words199 (by decide), by decide,
    claim5_readTime.2.2.1 words201 (by decide), by decide,
    claim5_readTime.2.2.2 words199 words201 (by decide)⟩

/-- Claim C6: submission validation checks title, content, excerpt, unit and
year in that fixed order, is fail-fast with the specific message of the
first failing rule, and a validation failure makes the submission abort with
an error and no create or update action; a draft missing both title and
content reports the title error (first conjunct, which needs nothing about
the content field). -/
theorem claim6_validateForm (editingNote : Option String) (f : FormData) :
    (jsTrim f.title = "" → validateForm f = some "Note title is required")
    ∧ (jsTrim f.title ≠ "" → jsTrim f.content = "" →
        validateForm f = some "Note content is required")
    ∧ (jsTrim f.title ≠ "" → jsTrim f.content ≠ "" → jsTrim f.excerpt = "" →
        validateForm f = some "Note excerpt is required")
    ∧ (jsTrim f.title ≠ "" → jsTrim f.content ≠ "" → jsTrim f.excerpt ≠ "" →
        f.unit_id = "" → validateForm f = some "Please select a unit")
    ∧ (jsTrim f.title ≠ "" → jsTrim f.content ≠ "" → jsTrim f.excerpt ≠ "" →
        f.unit_id ≠ "" → f.year_id = "" → validateForm f = some "Please select a year")
    ∧ (jsTrim f.title ≠ "" → jsTrim f.content ≠ "" → jsTrim f.excerpt ≠ "" →
        f.unit_id ≠ "" → f.year_id ≠ "" → validateForm f = none)
    ∧ (∀ msg, validateForm f = some msg →
        handleSubmit editingNote f = Except.error msg) := by
  refine ⟨?_, ?_, ?_, ?_, ?_, ?_, ?_⟩
  · intro h1; simp [validateForm, h1]
  · intro h1 h2; simp [validateForm, h1, h2]
  · intro h1 h2 h3; simp [validateForm, h1, h2, h3]
  · intro h1 h2 h3 h4; simp [validateForm, h1, h2, h3, h4]
  · intro h1 h2 h3 h4 h5; simp [validateForm, h1, h2, h3, h4, h5]
  · intro h1 h2 h3 h4 h5; simp [validateForm, h1, h2, h3, h4, h5]
  · intro msg h; simp [handleSubmit, h]

/-- Witness for claim C6: the blank draft (missing both title and content)
reports the title error, and the submission aborts with that error. -/
theorem claim6_validateForm_witness :
    validateForm INITIAL_FORM_DATA = some "Note title is required"
    ∧ handleSubmit none INITIAL_FORM_DATA = Except.error "Note title is required" :=
  ⟨(claim6_validateForm none INITIAL_FORM_DATA).1 (by decide),
    (claim6_validateForm none INITIAL_FORM_DATA).2.2.2.2.2.2 "Note title is required"
      ((claim6_validateForm none INITIAL_FORM_DATA).1 (by decide))⟩

/-- Claim C7: selecting a year stores the selected value in year_id and
clears unit_id to the empty string, whatever the prior draft state was. -/
theorem claim7_yearSelectOnChange (f : FormData) (value : String) :
    (yearSelectOnChange f value).year_id = value
    ∧ (yearSelectOnChange f value).unit_id = "" :=
  ⟨rfl, rfl⟩

/-- Claim C8: the publish toggle issues a payload whose only present field is
is_published, set to the negation of the current flag; applying that partial
update to a stored note changes nothing but is_published; and on a failed
remote call the local state is returned unchanged with the error message
surfaced (on success it is also unchanged, with no error). -/
theorem claim8_togglePublish (localNotes : List Note) (note stored : Note) :
    (togglePublishPatch note).is_published = some (!note.is_published)
    ∧ (togglePublishPatch note).slug = none
    ∧ (togglePublishPatch note).title = none
    ∧ (togglePublishPatch note).excerpt = none
    ∧ (togglePublishPatch note).content = none
    ∧ (togglePublishPatch note).unit_id = none
    ∧ (togglePublishPatch note).year_id = none
    ∧ (togglePublishPatch note).lecturer_id = none
    ∧ (togglePublishPatch note).difficulty_level = none
    ∧ (togglePublishPatch note).estimated_read_time = none
    ∧ (togglePublishPatch note).view_count = none
    ∧ (togglePublishPatch note).download_count = none
    ∧ (togglePublishPatch note).is_featured = none
    ∧ (togglePublishPatch note).created_at = none
    ∧ applyPatch stored (togglePublishPatch note)
        = { stored with is_published := !note.is_published }
    ∧ (∀ msg, togglePublishStatus localNotes note (Except.error msg)
        = (localNotes, togglePublishPatch note, some msg))
    ∧ togglePublishStatus localNotes note (Except.ok ())
        = (localNotes, togglePublishPatch note, none) :=
  ⟨rfl, rfl, rfl, rfl, rfl, rfl, rfl, rfl, rfl, rfl, rfl, rfl, rfl, rfl, rfl,
    fun _ => rfl, rfl⟩

/-- Claim C9 (counterexample): after a title edit, a manual slug edit, and a
second title edit, the manual slug "my-custom-slug" is not preserved; it is
overwritten with the regenerated slug "anatomy-basics". -/
theorem claim9_counterexample :
    (handleTitleChange (setSlugField (handleTitleChange INITIAL_FORM_DATA "Anatomy")
        "my-custom-slug") "Anatomy Basics").slug = "anatomy-basics"
    ∧ ((handleTitleChange (setSlugField (handleTitleChange INITIAL_FORM_DATA "Anatomy")
        "my-custom-slug") "Anatomy Basics").slug == "my-custom-slug") = false := by
  decide

/-- Claim C9 (amended): editing the title always stores the new title and
recomputes the slug from it via the slug generator, overwriting any manually
edited slug; no manual-override protection exists. -/
theorem claim9_title_edit_regenerates_slug (f : FormData) (title : String) :
    (handleTitleChange f title).slug = generateSlug title
    ∧ (handleTitleChange f title).title = title :=
  ⟨rfl, rfl⟩

/-- Claim C10: the related-notes list of the note detail page has at most 3
entries, and every entry is published, belongs to the unit of the displayed
note, and differs from the displayed note by id. -/
theorem claim10_relatedNotes (notes : List Note) (note : Note) :
    (relatedNotes notes note).length ≤ 3
    ∧ ((relatedNotes notes note).all fun n =>
        n.is_published && n.unit_id == note.unit_id && n.id != note.id) = true := by
  constructor
  · exact List.length_take_le 3 _
  · rw [List.all_eq_true]
    intro n hn
    have hmem := List.mem_of_mem_take hn
    have hfilter := (List.mem_filter.mp hmem).2
    simp only [Bool.and_eq_true] at hfilter ⊢
    exact ⟨⟨hfilter.2, hfilter.1.1⟩, hfilter.1.2⟩

/-- The boolean start-of-list test agrees with the existence of a suffix
decomposition. -/
theorem startsWithList_iff (pat : List Char) :
    ∀ l, startsWithList pat l = true ↔ ∃ post, l = pat ++ post := by
  induction pat with
  | nil => intro l; simp [startsWithList]
  | cons p ps ih =>
    intro l
    cases l with
    | nil => simp [startsWithList]
    | cons c cs =>
      simp only [startsWithList, Bool.and_eq_true, beq_iff_eq, ih, List.cons_append,
        List.cons.injEq]
      constructor
      · rintro ⟨h1, post, h2⟩; exact ⟨post, h1.symm, h2⟩
      · rintro ⟨post, h1, h2⟩; exact ⟨h1.symm, post, h2⟩

/-- The boolean substring test agrees with the existence of a decomposition
into a left part, the pattern, and a right part. -/
theorem containsList_iff (pat : List Char) :
    ∀ l, containsList pat l = true ↔ ∃ pre post, l = pre ++ pat ++ post := by
  intro l
  induction l with
  | nil =>
    simp only [containsList, List.isEmpty_iff]
    constructor
    · intro h; exact ⟨[], [], by simp [h]⟩
    · rintro ⟨pre, post, h⟩
      rcases List.append_eq_nil.mp (List.append_eq_nil.mp h.symm).1 with ⟨-, h2⟩
      exact h2
  | cons c cs ih =>
    simp only [containsList, Bool.or_eq_true, startsWithList_iff, ih]
    constructor
    · rintro (⟨post, h⟩ | ⟨pre, post, h⟩)
      · exact ⟨[], post, by simp [h]⟩
      · exact ⟨c :: pre, post, by simp [h]⟩
    · rintro ⟨pre, post, h⟩
      cases pre with
      | nil => exact Or.inl ⟨post, by simpa using h⟩
      | cons a as =>
        simp only [List.cons_append, List.cons.injEq] at h
        exact Or.inr ⟨as, post, h.2⟩

/-- The JS includes test agrees with the substring decomposition on the
character lists. -/
theorem strIncludes_iff (s pat : String) :
    strIncludes s pat = true ↔ ∃ pre post, s.data = pre ++ pat.data ++ post :=
  containsList_iff pat.data s.data

/-- Claim C2: a note is in the admin filtered list exactly when it is in the
collection and satisfies every supplied criterion: the search term occurs
case-insensitively in title or excerpt, the status filter "published"
requires is_published and "draft" requires its negation while "all" accepts
both, and a year filter other than "all" must equal the year of the note;
the empty search term satisfies the search criterion for every note. -/
theorem claim2_filteredNotes (notes : List Note) (searchTerm yearFilter : String) (n : Note) :
    (n ∈ filteredNotes notes searchTerm "all" yearFilter ↔
      n ∈ notes ∧ searchCriterion searchTerm n ∧ yearCriterion yearFilter n)
    ∧ (n ∈ filteredNotes notes searchTerm "published" yearFilter ↔
      n ∈ notes ∧ searchCriterion searchTerm n ∧ n.is_published = true
        ∧ yearCriterion yearFilter n)
    ∧ (n ∈ filteredNotes notes searchTerm "draft" yearFilter ↔
      n ∈ notes ∧ searchCriterion searchTerm n ∧ n.is_published = false
        ∧ yearCriterion yearFilter n)
    ∧ searchCriterion "" n := by
  refine ⟨?_, ?_, ?_, Or.inl ⟨[], (toLowerStr n.title).data, rfl⟩⟩
  all_goals
    simp only [filteredNotes, List.mem_filter, Bool.and_eq_true, Bool.or_eq_true,
      beq_iff_eq, Bool.not_eq_eq_eq_not, Bool.not_true, searchCriterion, yearCriterion,
      strIncludes_iff]
    constructor
    · rintro ⟨hmem, ⟨hsearch, hstatus⟩, hyear⟩
      refine ⟨hmem, hsearch, ?_⟩
      simp_all
    · rintro ⟨hmem, hsearch, hrest⟩
      refine ⟨hmem, ⟨hsearch, ?_⟩, ?_⟩ <;> simp_all

/-- Transitivity and totality of the comparator for the newest key. -/
theorem sortLe_newest_sound :
    (∀ a b c : Note, sortLe "newest" a b = true → sortLe "newest" b c = true →
      sortLe "newest" a c = true)
    ∧ (∀ a b : Note, (sortLe "newest" a b || sortLe "newest" b a) = true) := by
  constructor
  · intro a b c h1 h2
    simp only [sortLe, decide_eq_true_eq] at *
    omega
  · intro a b
    simp only [sortLe, Bool.or_eq_true, decide_eq_true_eq]
    omega

/-- Transitivity and totality of the comparator for the oldest key. -/
theorem sortLe_oldest_sound :
    (∀ a b c : Note, sortLe "oldest" a b = true → sortLe "oldest" b c = true →
      sortLe "oldest" a c = true)
    ∧ (∀ a b : Note, (sortLe "oldest" a b || sortLe "oldest" b a) = true) := by
  constructor
  · intro a b c h1 h2
    simp only [sortLe, decide_eq_true_eq] at *
    omega
  · intro a b
    simp only [sortLe, Bool.or_eq_true, decide_eq_true_eq]
    omega

/-- Transitivity and totality of the comparator for the popular key. -/
theorem sortLe_popular_sound :
    (∀ a b c : Note, sortLe "popular" a b = true → sortLe "popular" b c = true →
      sortLe "popular" a c = true)
    ∧ (∀ a b : Note, (sortLe "popular" a b || sortLe "popular" b a) = true) := by
  constructor
  · intro a b c h1 h2
    simp only [sortLe, decide_eq_true_eq] at *
    omega
  · intro a b
    simp only [sortLe, Bool.or_eq_true, decide_eq_true_eq]
    omega

/-- Transitivity and totality of the comparator for the title key. -/
theorem sortLe_title_sound :
    (∀ a b c : Note, sortLe "title" a b = true → sortLe "title" b c = true →
      sortLe "title" a c = true)
    ∧ (∀ a b : Note, (sortLe "title" a b || sortLe "title" b a) = true) := by
  constructor
  · intro a b c h1 h2
    simp only [sortLe, decide_eq_true_eq] at *
    exact le_trans h1 h2
  · intro a b
    simp only [sortLe, Bool.or_eq_true, decide_eq_true_eq]
    exact le_total a.title.data b.title.data

/-- Claim C3: sorting is a stage independent of and applied after filtering
(the unit page composes the two, and the search page sorts the search
results); the newest key orders by created_at descending, oldest ascending,
popular by view_count descending, title by the title order ascending; the
sort permutes its input, sorting the same input twice yields identical
output, and sorting an already sorted list changes nothing. -/
theorem claim3_sorting (l : List Note) :
    (sortNotes "newest" l).Pairwise (fun a b => b.created_at ≤ a.created_at)
    ∧ (sortNotes "oldest" l).Pairwise (fun a b => a.created_at ≤ b.created_at)
    ∧ (sortNotes "popular" l).Pairwise (fun a b => b.view_count ≤ a.view_count)
    ∧ (sortNotes "title" l).Pairwise (fun a b => a.title.data ≤ b.title.data)
    ∧ (∀ sortBy, (sortNotes sortBy l).Perm l)
    ∧ (∀ sortBy, sortNotes sortBy l = sortNotes sortBy l)
    ∧ sortNotes "newest" (sortNotes "newest" l) = sortNotes "newest" l
    ∧ sortNotes "oldest" (sortNotes "oldest" l) = sortNotes "oldest" l
    ∧ sortNotes "popular" (sortNotes "popular" l) = sortNotes "popular" l
    ∧ sortNotes "title" (sortNotes "title" l) = sortNotes "title" l
    ∧ (∀ notes unitId difficultyFilter sortBy,
        unitNotes notes unitId difficultyFilter sortBy
          = sortNotes sortBy (unitNotesFiltered notes unitId difficultyFilter))
    ∧ (∀ sortBy searchResults,
        sortedResults sortBy searchResults = sortNotes sortBy searchResults) := by
  have hnew := List.sorted_mergeSort sortLe_newest_sound.1 sortLe_newest_sound.2 l
  have hold := List.sorted_mergeSort sortLe_oldest_sound.1 sortLe_oldest_sound.2 l
  have hpop := List.sorted_mergeSort sortLe_popular_sound.1 sortLe_popular_sound.2 l
  have htit := List.sorted_mergeSort sortLe_title_sound.1 sortLe_title_sound.2 l
  refine ⟨?_, ?_, ?_, ?_, fun sortBy => List.mergeSort_perm l (sortLe sortBy),
    fun _ => rfl, ?_, ?_, ?_, ?_, fun _ _ _ _ => rfl, fun _ _ => rfl⟩
  · exact hnew.imp (fun h => by simpa [sortLe] using h)
  · exact hold.imp (fun h => by simpa [sortLe] using h)
  · exact hpop.imp (fun h => by simpa [sortLe] using h)
  · exact htit.imp (fun h => by simpa [sortLe] using h)
  · exact List.mergeSort_of_sorted
      (List.sorted_mergeSort sortLe_newest_sound.1 sortLe_newest_sound.2 l)
  · exact List.mergeSort_of_sorted
      (List.sorted_mergeSort sortLe_oldest_sound.1 sortLe_oldest_sound.2 l)
  · exact List.mergeSort_of_sorted
      (List.sorted_mergeSort sortLe_popular_sound.1 sortLe_popular_sound.2 l)
  · exact List.mergeSort_of_sorted
      (List.sorted_mergeSort sortLe_title_sound.1 sortLe_title_sound.2 l)

/-- Char.ofNat keeps the numeric value for any code point below the
surrogate range. -/
theorem char_toNat_ofNat_lt (n : Nat) (h : n < 55296) : (Char.ofNat n).toNat = n := by
  have hv : n.isValidChar := Or.inl h
  simp [Char.ofNat, Char.toNat, hv, Char.ofNatAux, UInt32.toNat, BitVec.toNat_ofNatLt]

/-- Lowercasing never produces an uppercase ASCII letter. -/
theorem toLowerChar_not_upper (c : Char) :
    ¬(65 ≤ (toLowerChar c).toNat ∧ (toLowerChar c).toNat ≤ 90) := by
  unfold toLowerChar
  by_cases h : (65 ≤ c.toNat && c.toNat ≤ 90) = true
  · rw [if_pos h]
    simp only [Bool.and_eq_true, decide_eq_true_eq] at h
    rw [char_toNat_ofNat_lt _ (by omega)]
    omega
  · rw [if_neg h]
    simp only [Bool.and_eq_true, decide_eq_true_eq] at h
    exact fun hcon => h hcon

/-- Lowercasing an uppercase ASCII letter adds 32 to the code point. -/
theorem toLowerChar_upper (c : Char) (h : 65 ≤ c.toNat ∧ c.toNat ≤ 90) :
    (toLowerChar c).toNat = c.toNat + 32 := by
  unfold toLowerChar
  rw [if_pos (by simpa using h)]
  exact char_toNat_ofNat_lt _ (by omega)

/-- Every character of the collapse output is either the inserted hyphen or
a non-separator character of the input. -/
theorem mem_of_mem_collapseSeps :
    ∀ (l : List Char) (c : Char), c ∈ collapseSeps l →
      c = '-' ∨ (c ∈ l ∧ isSep c = false) := by
  intro l
  induction l with
  | nil => simp [collapseSeps]
  | cons a tail ih =>
    cases tail with
    | nil =>
      intro c hc
      cases h : isSep a with
      | true =>
        simp only [collapseSeps, h, if_true, List.mem_singleton] at hc
        exact Or.inl hc
      | false =>
        simp only [collapseSeps, h, Bool.false_eq_true, if_false, List.mem_singleton] at hc
        subst hc
        exact Or.inr ⟨List.mem_singleton_self _, h⟩
    | cons b rest =>
      intro c hc
      cases ha : isSep a with
      | true =>
        cases hb : isSep b with
        | true =>
          simp only [collapseSeps, ha, hb, if_true] at hc
          rcases ih c hc with h1 | ⟨h2, h3⟩
          · exact Or.inl h1
          · exact Or.inr ⟨List.mem_cons_of_mem a h2, h3⟩
        | false =>
          simp only [collapseSeps, ha, hb, Bool.false_eq_true, if_true, if_false,
            List.mem_cons] at hc
          rcases hc with h1 | h1
          · exact Or.inl h1
          · rcases ih c h1 with h2 | ⟨h2, h3⟩
            · exact Or.inl h2
            · exact Or.inr ⟨List.mem_cons_of_mem a h2, h3⟩
      | false =>
        simp only [collapseSeps, ha, Bool.false_eq_true, if_false, List.mem_cons] at hc
        rcases hc with h1 | h1
        · subst h1
          exact Or.inr ⟨List.mem_cons_self c (b :: rest), ha⟩
        · rcases ih c h1 with h2 | ⟨h2, h3⟩
          · exact Or.inl h2
          · exact Or.inr ⟨List.mem_cons_of_mem a h2, h3⟩

/-- The collapse of a list starting with a non-separator starts with that
character. -/
theorem collapseSeps_head_not_sep (b : Char) (rest : List Char) (hb : isSep b = false) :
    (collapseSeps (b :: rest)).head? = some b := by
  cases rest <;> simp [collapseSeps, hb]

/-- A non-separator is not the hyphen. -/
theorem not_sep_ne_hyphen (b : Char) (hb : isSep b = false) : b ≠ '-' := by
  intro he
  rw [he] at hb
  simp [isSep] at hb

/-- The collapse output never contains two adjacent hyphens. -/
theorem chain_collapseSeps :
    ∀ l : List Char, (collapseSeps l).Chain' (fun a b => ¬(a = '-' ∧ b = '-')) := by
  intro l
  induction l with
  | nil => simp [collapseSeps]
  | cons a tail ih =>
    cases tail with
    | nil => cases h : isSep a <;> simp [collapseSeps, h]
    | cons b rest =>
      cases ha : isSep a with
      | true =>
        cases hb : isSep b with
        | true => simpa only [collapseSeps, ha, hb, if_true] using ih
        | false =>
          rw [show collapseSeps (a :: b :: rest) = '-' :: collapseSeps (b :: rest) by
            simp [collapseSeps, ha, hb]]
          rw [List.chain'_cons']
          refine ⟨?_, ih⟩
          intro y hy
          rw [collapseSeps_head_not_sep b rest hb, Option.mem_def, Option.some_inj] at hy
          rintro ⟨-, h2⟩
          exact not_sep_ne_hyphen b hb (hy ▸ h2)
      | false =>
        rw [show collapseSeps (a :: b :: rest) = a :: collapseSeps (b :: rest) by
          simp [collapseSeps, ha]]
        rw [List.chain'_cons']
        refine ⟨?_, ih⟩
        intro y _
        rintro ⟨h1, -⟩
        exact not_sep_ne_hyphen a ha h1

/-- The head of the remainder of dropWhile does not satisfy the dropped
predicate. -/
theorem head_dropWhile_false {α : Type} (p : α → Bool) :
    ∀ (l : List α) (c : α), (l.dropWhile p).head? = some c → p c = false := by
  intro l
  induction l with
  | nil => simp
  | cons a tail ih =>
    intro c h
    by_cases hp : p a = true
    · rw [List.dropWhile_cons, if_pos hp] at h
      exact ih c h
    · rw [List.dropWhile_cons, if_neg hp] at h
      simp only [List.head?_cons, Option.some_inj] at h
      subst h
      simpa using hp

/-- A non-empty dropWhile remainder keeps the last element of its input. -/
theorem getLast_dropWhile {α : Type} (p : α → Bool) (l : List α) (c : α)
    (h : (l.dropWhile p).getLast? = some c) : l.getLast? = some c := by
  obtain ⟨t, ht⟩ := @List.dropWhile_suffix _ l p
  rw [← ht, List.getLast?_append, h]
  rfl

/-- The first character of stripHyphens is never a hyphen. -/
theorem stripHyphens_head (l : List Char) (c : Char)
    (h : (stripHyphens l).head? = some c) : (c == '-') = false := by
  unfold stripHyphens at h
  rw [List.head?_reverse] at h
  have h2 := getLast_dropWhile (fun c => c == '-') _ _ h
  rw [List.getLast?_reverse] at h2
  exact head_dropWhile_false (fun c => c == '-') _ _ h2

/-- The last character of stripHyphens is never a hyphen. -/
theorem stripHyphens_getLast (l : List Char) (c : Char)
    (h : (stripHyphens l).getLast? = some c) : (c == '-') = false := by
  unfold stripHyphens at h
  rw [List.getLast?_reverse] at h
  exact head_dropWhile_false (fun c => c == '-') _ _ h

/-- Dropping characters at both ends preserves membership in the input. -/
theorem mem_trimBoth (p : Char → Bool) (l : List Char) (c : Char)
    (h : c ∈ ((l.dropWhile p).reverse.dropWhile p).reverse) : c ∈ l := by
  rw [List.mem_reverse] at h
  have h2 := (List.dropWhile_suffix p).subset h
  rw [List.mem_reverse] at h2
  exact (List.dropWhile_suffix p).subset h2

/-- Chains of a symmetric relation survive stripping at both ends. -/
theorem chain_stripHyphens {R : Char → Char → Prop} (hsymm : ∀ a b, R a b → R b a)
    (l : List Char) (h : l.Chain' R) : (stripHyphens l).Chain' R := by
  unfold stripHyphens
  have h1 := h.suffix (List.dropWhile_suffix (fun c => c == '-'))
  have h2 := List.chain'_reverse.mpr (h1.imp (fun a b hab => hsymm a b hab))
  have h3 := h2.suffix (List.dropWhile_suffix (fun c => c == '-'))
  exact List.chain'_reverse.mpr (h3.imp (fun a b hab => hsymm a b hab))

/-- Every character of a generated slug is a lowercase letter, a digit, an
underscore or a hyphen. -/
theorem generateSlug_chars (title : String) :
    ∀ c ∈ (generateSlug title).data, slugCharOK c = true := by
  intro c hc
  have hc2 : c ∈ collapseSeps ((jsTrimList (title.data.map toLowerChar)).filter
      (fun c => isWordChar c || isJsSpace c || c == '-')) :=
    mem_trimBoth _ _ c hc
  rcases mem_of_mem_collapseSeps _ c hc2 with h | ⟨hmem, hsep⟩
  · subst h; rfl
  · obtain ⟨hmem2, hcls⟩ := List.mem_filter.mp hmem
    have hmem3 : c ∈ title.data.map toLowerChar := mem_trimBoth _ _ _ hmem2
    obtain ⟨c0, -, hc0⟩ := List.mem_map.mp hmem3
    have hupper := toLowerChar_not_upper c0
    rw [hc0] at hupper
    have hnsp : isJsSpace c = false := by
      cases hx : isJsSpace c
      · rfl
      · exfalso; simp [isSep, hx] at hsep
    have hnus : (c == '_') = false := by
      cases hx : (c == '_')
      · rfl
      · exfalso; simp [isSep, hx] at hsep
    have hnhy : (c == '-') = false := by
      cases hx : (c == '-')
      · rfl
      · exfalso; simp [isSep, hx] at hsep
    have hword : isWordChar c = true := by
      simp only [Bool.or_eq_true] at hcls
      rcases hcls with (h1 | h1) | h1
      · exact h1
      · rw [hnsp] at h1; exact absurd h1 (by simp)
      · rw [hnhy] at h1; exact absurd h1 (by simp)
    simp only [isWordChar, Bool.or_eq_true, Bool.and_eq_true, decide_eq_true_eq,
      beq_iff_eq] at hword
    simp only [slugCharOK, Bool.or_eq_true, Bool.and_eq_true, decide_eq_true_eq,
      beq_iff_eq]
    rcases hword with ((h1 | h1) | h1) | h1
    · exact Or.inl (Or.inl (Or.inl h1))
    · exact absurd h1 hupper
    · exact Or.inl (Or.inl (Or.inr h1))
    · rw [h1] at hnus; exact absurd hnus (by simp)

/-- Claim C4: for every input title, the slug contains only lowercase
alphanumerics, underscores and hyphens, never starts or ends with a hyphen,
never contains two consecutive hyphens, and the example title
"Intro to Anatomy!! 101" maps to "intro-to-anatomy-101". -/
theorem claim4_generateSlug (title : String) :
    ((generateSlug title).data.all slugCharOK) = true
    ∧ ((generateSlug title).data.head? == some '-') = false
    ∧ ((generateSlug title).data.getLast? == some '-') = false
    ∧ (generateSlug title).data.Chain' (fun a b => ¬(a = '-' ∧ b = '-'))
    ∧ generateSlug "Intro to Anatomy!! 101" = "intro-to-anatomy-101" := by
  refine ⟨?_, ?_, ?_, ?_, by decide⟩
  · rw [List.all_eq_true]
    exact generateSlug_chars title
  · cases hh : (generateSlug title).data.head? with
    | none => rfl
    | some c =>
      have := stripHyphens_head _ c hh
      rw [show (some c == some '-') = (c == '-') from rfl, this]
  · cases hh : (generateSlug title).data.getLast? with
    | none => rfl
    | some c =>
      have := stripHyphens_getLast _ c hh
      rw [show (some c == some '-') = (c == '-') from rfl, this]
  · exact chain_stripHyphens (fun a b hab h => hab ⟨h.2, h.1⟩) _ (chain_collapseSeps _)

end Bolt
